import Mathlib

/-!
Verification of the default-plugin unit of a module bundler
(src/utils/defaultPlugin.ts): the specifier-to-path resolver and the two
per-output-format URL-mechanism tables behind the resolveAssetUrl and
resolveImportMeta hooks.

The filesystem and path primitives (lstatSync, realpathSync, readdirSync,
basename, dirname, isAbsolute, resolve) are external collaborators of the
unit; they are modelled as explicit structure-valued parameters, so every
theorem quantifies over the collaborating environment.

All generated code strings from the source are reproduced verbatim; the
apostrophe and brace characters inside them are written with \x27, \x7b
and \x7d escapes.
-/

/-- Source line 80: `` const getResolveUrl = (path, URL = 'URL') => `new ${URL}(${path}).href` ``.
The default argument is passed explicitly at every call site. -/
def getResolveUrl (path URLexpr : String) : String :=
  "new " ++ URLexpr ++ "(" ++ path ++ ").href"

/-- Source lines 82-83: the document-context URL of a chunk. -/
def getUrlFromDocument (chunkId : String) : String :=
  "(document.currentScript && document.currentScript.src || new URL(\x27" ++
    chunkId ++ "\x27, document.baseURI).href)"

/-- Source lines 85-99: the import.meta URL mechanism table. A string-keyed
record lookup is embedded as an Option-valued function; the table has
entries for amd, cjs, iife, system and umd, and no entry for es. -/
def importMetaUrlMechanisms (format : String) : Option (String → String) :=
  if format = "amd" then
    some (fun _ => getResolveUrl ("module.uri, document.baseURI") ("URL"))
  else if format = "cjs" then
    some (fun chunkId =>
      "(typeof document === \x27undefined\x27 ? " ++
        getResolveUrl ("\x27file:\x27 + __filename") ("(require(\x27u\x27 + \x27rl\x27).URL)") ++
        " : " ++ getUrlFromDocument chunkId ++ ")")
  else if format = "iife" then
    some (fun chunkId => getUrlFromDocument chunkId)
  else if format = "system" then
    some (fun _ => "module.meta.url")
  else if format = "umd" then
    some (fun chunkId =>
      "(typeof document === \x27undefined\x27 ? " ++
        getResolveUrl ("\x27file:\x27 + __filename") ("(require(\x27u\x27 + \x27rl\x27).URL)") ++
        " : " ++ getUrlFromDocument chunkId ++ ")")
  else none

/-- Source lines 101-104: document-relative URL of a path relative to the
current chunk. -/
def getRelativeUrlFromDocument (relativePath : String) : String :=
  getResolveUrl
    ("(document.currentScript && document.currentScript.src || document.baseURI) + \x27/../" ++
      relativePath ++ "\x27") ("URL")

/-- Source lines 106-121: the asset-URL mechanism table, with entries for
all six formats amd, cjs, es, iife, system, umd. -/
def relativeUrlMechanisms (format : String) : Option (String → String) :=
  if format = "amd" then
    some (fun relativePath =>
      getResolveUrl ("module.uri + \x27/../" ++ relativePath ++ "\x27, document.baseURI") ("URL"))
  else if format = "cjs" then
    some (fun relativePath =>
      "(typeof document === \x27undefined\x27 ? " ++
        getResolveUrl ("\x27file:\x27 + __dirname + \x27/" ++ relativePath ++ "\x27")
          ("(require(\x27u\x27 + \x27rl\x27).URL)") ++
        " : " ++ getRelativeUrlFromDocument relativePath ++ ")")
  else if format = "es" then
    some (fun relativePath =>
      getResolveUrl ("\x27" ++ relativePath ++ "\x27, import.meta.url") ("URL"))
  else if format = "iife" then
    some (fun relativePath => getRelativeUrlFromDocument relativePath)
  else if format = "system" then
    some (fun relativePath =>
      getResolveUrl ("\x27" ++ relativePath ++ "\x27, module.meta.url") ("URL"))
  else if format = "umd" then
    some (fun relativePath =>
      "(typeof document === \x27undefined\x27 ? " ++
        getResolveUrl ("\x27file:\x27 + __dirname + \x27/" ++ relativePath ++ "\x27")
          ("(require(\x27u\x27 + \x27rl\x27).URL)") ++
        " : " ++ getRelativeUrlFromDocument relativePath ++ ")")
  else none

/-- Source lines 17-19: `resolveAssetUrl` looks the format up in
`relativeUrlMechanisms` and calls the entry unconditionally
(`relativeUrlMechanisms[format](relativeAssetPath)`); when the format has
no entry the lookup yields `undefined` and the call raises a TypeError,
embedded as `Except.error ()`. -/
def resolveAssetUrl (relativeAssetPath format : String) : Except Unit String :=
  match relativeUrlMechanisms format with
  | some mech => Except.ok (mech relativeAssetPath)
  | none => Except.error ()

/-- Source lines 20-25: `resolveImportMeta`. The guarded lookup
`importMetaUrlMechanisms[format] && importMetaUrlMechanisms[format](chunkId)`
yields a falsy value (embedded `none`) on a missing table entry, and the
produced mechanism string is tested for JavaScript truthiness (non-empty)
before any result is synthesized. `prop = none` embeds the `null`
property request. -/
def resolveImportMeta (prop : Option String) (chunkId format : String) : Option String :=
  match importMetaUrlMechanisms format with
  | none => none
  | some mech0 =>
    let mechanism := mech0 chunkId
    if mechanism = "" then none
    else if prop = none then some ("(\x7b url: " ++ mechanism ++ " \x7d)")
    else if prop = some ("url") then some mechanism
    else some ("undefined")

/-- Substring containment between strings, used to state which runtime
anchors a generated mechanism string mentions. -/
def ContainsStr (hay needle : String) : Prop :=
  ∃ pre post, hay = pre ++ needle ++ post

/-- File status as reported by the collaborator lstatSync: whether the entry
is a plain file and whether it is a symbolic link. -/
structure Stats where
  isFile : Bool
  isSymbolicLink : Bool
deriving DecidableEq

/-- The filesystem collaborator of the resolver. Each probe returns `none`
when the underlying synchronous call would raise (permission denied, ENOENT,
symlink cycle in realpath, ...). -/
structure FileSys where
  lstat : String → Option Stats
  realpath : String → Option String
  readdir : String → Option (List String)

/-- The path-primitive collaborator of the resolver: basename, dirname,
is-absolute test, Node-style resolve of a specifier against a base, and the
current working directory (the value of a zero-argument resolve call). -/
structure PathOps where
  basename : String → String
  dirname : String → String
  isAbsolute : String → Bool
  resolveFrom : String → String → String
  cwd : String

/-- Source lines 29-44: file verification. The source recurses on the
result of realpathSync, which is not structurally decreasing, so the
embedding carries an explicit fuel; exhausted fuel yields `none`. The
surrounding try/catch is embedded by every failing probe (`none`) making
the whole call yield `none`. The case guard `files.indexOf(name) !== -1`
is embedded as list membership. -/
def findFile (po : PathOps) (fs : FileSys) : Nat → String → Bool → Option String
  | 0, _, _ => none
  | fuel + 1, file, preserveSymlinks =>
    match fs.lstat file with
    | none => none
    | some stats =>
      if !preserveSymlinks && stats.isSymbolicLink then
        match fs.realpath file with
        | none => none
        | some target => findFile po fs fuel target preserveSymlinks
      else if (preserveSymlinks && stats.isSymbolicLink) || stats.isFile then
        match fs.readdir (po.dirname file) with
        | none => none
        | some files => if po.basename file ∈ files then some file else none
      else none

/-- JavaScript truthiness of a string-or-undefined value: undefined and the
empty string are falsy. -/
def jsTruthy : Option String → Bool
  | none => false
  | some s => !(s == "")

/-- Source lines 46-53: try the file as given, then with `.mjs` appended,
then with `.js` appended; the first truthy verification result wins. -/
def addJsExtensionIfNecessary (po : PathOps) (fs : FileSys) (fuel : Nat)
    (file : String) (preserveSymlinks : Bool) : Option String :=
  let found := findFile po fs fuel file preserveSymlinks
  if jsTruthy found then found
  else
    let found2 := findFile po fs fuel (file ++ ".mjs") preserveSymlinks
    if jsTruthy found2 then found2
    else findFile po fs fuel (file ++ ".js") preserveSymlinks

/-- The argument record of the `error` helper from utils/error. -/
structure RollupError where
  code : String
  message : String
  url : String

/-- Modelled from the spec: the `error` helper (imported from utils/error,
which is not under src/) reports a fatal environment error "immediately";
it is embedded as producing the `Except.error` branch of the resolver. -/
def missingProcessError : RollupError :=
  ⟨"MISSING_PROCESS",
   "It looks like you\x27re using Rollup in a non-Node.js environment. This means you must supply a plugin with custom resolveId and load functions",
   "https://rollupjs.org/guide/en#a-simple-example"⟩

/-- Source line 74: the composed candidate path
`resolve(importer ? dirname(importer) : resolve(), importee)`; a missing or
empty (falsy) importer resolves against the current working directory. -/
def composedPath (po : PathOps) (importee : String) (importer : Option String) : String :=
  po.resolveFrom
    (match importer with
     | some imp => if imp = "" then po.cwd else po.dirname imp
     | none => po.cwd)
    importee

/-- Source lines 55-78: the resolver returned by createResolveId. The
`typeof process` probe is embedded as the flag `hasProcess`; the bare
specifier test `importer !== undefined && !isAbsolute(importee) &&
importee[0] !== '.'` is embedded over the first character of the
specifier. -/
def resolveId (po : PathOps) (fs : FileSys) (hasProcess preserveSymlinks : Bool)
    (fuel : Nat) (importee : String) (importer : Option String) :
    Except RollupError (Option String) :=
  if !hasProcess then Except.error missingProcessError
  else if importer.isSome && !(po.isAbsolute importee) &&
      !(importee.data.head? == some '.') then
    Except.ok none
  else
    Except.ok (addJsExtensionIfNecessary po fs fuel
      (composedPath po importee importer) preserveSymlinks)

/-- Consistency of the filesystem snapshot: realpathSync returns a fully
dereferenced path, so a successful realpath result never has symbolic-link
status. -/
def realpathConsistent (fs : FileSys) : Prop :=
  ∀ p target st, fs.realpath p = some target → fs.lstat target = some st →
    st.isSymbolicLink = false

/-- Splits a character list at every slash (structurally recursive, so
closed instances reduce inside the kernel). -/
def splitSlash : List Char → List (List Char)
  | [] => [[]]
  | c :: cs =>
    match splitSlash cs with
    | [] => [[c]]
    | r :: rs => if c = '/' then [] :: r :: rs else (c :: r) :: rs

/-- Joins character lists with slashes; inverse-flavoured companion of
splitSlash for the sample path primitives. -/
def joinSlash : List (List Char) → List Char
  | [] => []
  | [x] => x
  | x :: xs => x ++ '/' :: joinSlash xs

/-- Tests whether a character list starts with a slash. -/
def headIsSlash : List Char → Bool
  | c :: _ => c == '/'
  | [] => false

/-- Posix-flavoured concrete path primitives for closed test inputs. -/
def samplePathOps : PathOps :=
  ⟨fun s => String.mk ((splitSlash s.data).getLastD []),
   fun s => String.mk (joinSlash ((splitSlash s.data).dropLast)),
   fun s => headIsSlash s.data,
   fun base s => if headIsSlash s.data then s else base ++ "/" ++ s,
   "/cwd"⟩

/-- A filesystem on which every probe fails. -/
def fsEmpty : FileSys := ⟨fun _ => none, fun _ => none, fun _ => none⟩

/-- A filesystem holding the plain files /dir/a.js and /dir/b.mjs. -/
def fsPlain : FileSys :=
  ⟨fun p => if p = "/dir/a.js" ∨ p = "/dir/b.mjs" then some ⟨true, false⟩ else none,
   fun _ => none,
   fun p => if p = "/dir" then some ["a.js", "b.mjs"] else none⟩

/-- A filesystem where /dir/Foo.js has file status but the directory listing
records the differently-cased name foo.js. -/
def fsCase : FileSys :=
  ⟨fun p => if p = "/dir/Foo.js" then some ⟨true, false⟩ else none,
   fun _ => none,
   fun p => if p = "/dir" then some ["foo.js"] else none⟩

/-- A filesystem where /dir/link.js is a symbolic link whose real target is
the plain file /real/target.js; both names appear in their directory
listings. -/
def fsLink : FileSys :=
  ⟨fun p => if p = "/dir/link.js" then some ⟨false, true⟩
      else if p = "/real/target.js" then some ⟨true, false⟩ else none,
   fun p => if p = "/dir/link.js" then some ("/real/target.js") else none,
   fun p => if p = "/dir" then some ["link.js"]
      else if p = "/real" then some ["target.js"] else none⟩

/-- A filesystem where /dir/self.js is a symbolic link whose realpath call
fails, as it does on a symlink cycle. -/
def fsCycle : FileSys :=
  ⟨fun p => if p = "/dir/self.js" then some ⟨false, true⟩ else none,
   fun _ => none,
   fun _ => none⟩

theorem strAppend_ne_empty_left (a b : String) (h : a ≠ "") : a ++ b ≠ "" := by
  intro hab
  apply h
  have hd := congrArg String.data hab
  simp only [String.data_append] at hd
  rcases List.append_eq_nil.mp hd with ⟨ha, _⟩
  exact String.ext ha

theorem strAppend3_ne_empty (a b c : String) (h : a ≠ "") : a ++ b ++ c ≠ "" :=
  strAppend_ne_empty_left _ _ (strAppend_ne_empty_left _ _ h)

/-- Claim C1 counterexample: the format "unknown" has no entry in the
asset-URL table, yet resolveAssetUrl raises (the JavaScript call
`relativeUrlMechanisms[format](relativeAssetPath)` invokes undefined)
instead of yielding "no entry". -/
theorem resolveAssetUrl_unknown_format_raises :
    relativeUrlMechanisms ("unknown") = none ∧
    resolveAssetUrl ("img.png") ("unknown") = Except.error () := by
  constructor <;> rfl

/-- Claim C1 (amended): resolveImportMeta cannot fail — a format with no
import-meta table entry yields no result; resolveAssetUrl yields the table
mechanism applied to the path whenever the format has an asset-table entry,
but raises a TypeError (embedded as Except.error) on a format with no
entry. -/
theorem mechanism_lookup_miss_behavior :
    (∀ prop chunkId format, importMetaUrlMechanisms format = none →
        resolveImportMeta prop chunkId format = none) ∧
    (∀ relativeAssetPath format mech, relativeUrlMechanisms format = some mech →
        resolveAssetUrl relativeAssetPath format = Except.ok (mech relativeAssetPath)) ∧
    (∀ relativeAssetPath format, relativeUrlMechanisms format = none →
        resolveAssetUrl relativeAssetPath format = Except.error ()) := by
  refine ⟨?_, ?_, ?_⟩
  · intro prop chunkId format h
    simp [resolveImportMeta, h]
  · intro relativeAssetPath format mech h
    simp [resolveAssetUrl, h]
  · intro relativeAssetPath format h
    simp [resolveAssetUrl, h]

/-- Claim C1 witness: the amended behaviors at the concrete formats es
(missing from the import-meta table) and other (missing from the asset
table). -/
theorem mechanism_lookup_miss_behavior_witness :
    resolveImportMeta (some ("url")) ("chunk.js") ("es") = none ∧
    resolveAssetUrl ("img.png") ("other") = Except.error () :=
  ⟨mechanism_lookup_miss_behavior.1 (some ("url")) ("chunk.js") ("es") rfl,
   mechanism_lookup_miss_behavior.2.2 ("img.png") ("other") rfl⟩

/-- Claim C2: for every chunkId, resolveImportMeta with property null and
format iife wraps the iife URL mechanism in an object-literal expression;
with any property other than null and url (e.g. other) it yields the
literal undefined; with property url and format es it yields no result,
the import-meta table having no es entry. -/
theorem resolveImportMeta_iife_and_es_cases (chunkId : String) :
    resolveImportMeta none chunkId ("iife")
      = some ("(\x7b url: " ++ getUrlFromDocument chunkId ++ " \x7d)") ∧
    (∀ prop : String, prop ≠ "url" →
        resolveImportMeta (some prop) chunkId ("iife") = some ("undefined")) ∧
    resolveImportMeta (some ("url")) chunkId ("es") = none := by
  have hiife : importMetaUrlMechanisms ("iife") = some (fun c => getUrlFromDocument c) := rfl
  have hes : importMetaUrlMechanisms ("es") = none := rfl
  have hne : getUrlFromDocument chunkId ≠ "" :=
    strAppend3_ne_empty _ _ _ (by decide)
  refine ⟨?_, ?_, ?_⟩
  · simp [resolveImportMeta, hiife, getUrlFromDocument] at hne ⊢
    simp [hne]
  · intro prop hprop
    simp [resolveImportMeta, hiife, getUrlFromDocument] at hne ⊢
    simp [hne, hprop]
  · simp [resolveImportMeta, hes]

/-- Claim C2 witness: the property other at the concrete chunk bundle.js
yields the literal undefined for the iife format. -/
theorem resolveImportMeta_iife_and_es_cases_witness :
    resolveImportMeta (some ("other")) ("bundle.js") ("iife") = some ("undefined") :=
  (resolveImportMeta_iife_and_es_cases ("bundle.js")).2.1 ("other") (by decide)

/-- Claim C8: for every relative path, the es asset mechanism anchors on
import.meta.url; the cjs and umd entries are single expressions branching
at run time on the presence of a document global, with a file-URL
construction from __dirname on the non-browser branch and the
document-relative construction on the browser branch; amd and system use
their module-loader URI metadata; iife always uses the document context. -/
theorem relativeUrlMechanisms_format_shapes (relativePath : String) :
    (∃ pre post, resolveAssetUrl relativePath ("es")
        = Except.ok (pre ++ "import.meta.url" ++ post)) ∧
    (∃ nonBrowser browser,
        resolveAssetUrl relativePath ("cjs")
          = Except.ok ("(typeof document === \x27undefined\x27 ? " ++ nonBrowser ++
              " : " ++ browser ++ ")") ∧
        ContainsStr nonBrowser ("\x27file:\x27 + __dirname") ∧
        browser = getRelativeUrlFromDocument relativePath) ∧
    (∃ nonBrowser browser,
        resolveAssetUrl relativePath ("umd")
          = Except.ok ("(typeof document === \x27undefined\x27 ? " ++ nonBrowser ++
              " : " ++ browser ++ ")") ∧
        ContainsStr nonBrowser ("\x27file:\x27 + __dirname") ∧
        browser = getRelativeUrlFromDocument relativePath) ∧
    (∃ pre post, resolveAssetUrl relativePath ("amd")
        = Except.ok (pre ++ "module.uri" ++ post)) ∧
    (∃ pre post, resolveAssetUrl relativePath ("system")
        = Except.ok (pre ++ "module.meta.url" ++ post)) ∧
    (resolveAssetUrl relativePath ("iife")
        = Except.ok (getRelativeUrlFromDocument relativePath) ∧
     ContainsStr (getRelativeUrlFromDocument relativePath) ("document.baseURI")) := by
  refine ⟨?_, ?_, ?_, ?_, ?_, ?_, ?_⟩
  · refine ⟨"new URL(\x27" ++ relativePath ++ "\x27, ", (").href"), ?_⟩
    show Except.ok (getResolveUrl ("\x27" ++ relativePath ++ "\x27, import.meta.url") ("URL")) = _
    congr 1
    apply String.ext
    simp only [getResolveUrl, String.data_append, List.append_assoc]
    norm_num
  · refine ⟨getResolveUrl ("\x27file:\x27 + __dirname + \x27/" ++ relativePath ++ "\x27")
        ("(require(\x27u\x27 + \x27rl\x27).URL)"),
      getRelativeUrlFromDocument relativePath, rfl,
      ⟨"new (require(\x27u\x27 + \x27rl\x27).URL)(",
       " + \x27/" ++ relativePath ++ "\x27).href", ?_⟩, rfl⟩
    apply String.ext
    simp only [getResolveUrl, String.data_append, List.append_assoc]
    norm_num
  · refine ⟨getResolveUrl ("\x27file:\x27 + __dirname + \x27/" ++ relativePath ++ "\x27")
        ("(require(\x27u\x27 + \x27rl\x27).URL)"),
      getRelativeUrlFromDocument relativePath, rfl,
      ⟨"new (require(\x27u\x27 + \x27rl\x27).URL)(",
       " + \x27/" ++ relativePath ++ "\x27).href", ?_⟩, rfl⟩
    apply String.ext
    simp only [getResolveUrl, String.data_append, List.append_assoc]
    norm_num
  · refine ⟨"new URL(", " + \x27/../" ++ relativePath ++ "\x27, document.baseURI).href", ?_⟩
    show Except.ok (getResolveUrl ("module.uri + \x27/../" ++ relativePath ++
        "\x27, document.baseURI") ("URL")) = _
    congr 1
    apply String.ext
    simp only [getResolveUrl, String.data_append, List.append_assoc]
    norm_num
  · refine ⟨"new URL(\x27" ++ relativePath ++ "\x27, ", (").href"), ?_⟩
    show Except.ok (getResolveUrl ("\x27" ++ relativePath ++ "\x27, module.meta.url") ("URL")) = _
    congr 1
    apply String.ext
    simp only [getResolveUrl, String.data_append, List.append_assoc]
    norm_num
  · rfl
  · refine ⟨"new URL((document.currentScript && document.currentScript.src || ",
      ") + \x27/../" ++ relativePath ++ "\x27).href", ?_⟩
    apply String.ext
    simp only [getRelativeUrlFromDocument, getResolveUrl, String.data_append, List.append_assoc]
    norm_num

/-- Claim C4: a bare specifier (not absolute, not starting with a dot)
given with a defined importer resolves to null uniformly in the
filesystem, i.e. without any filesystem probe influencing the result. -/
theorem bare_specifier_unresolved (po : PathOps) (preserveSymlinks : Bool)
    (fuel : Nat) (importee imp : String)
    (habs : po.isAbsolute importee = false)
    (hdot : importee.data.head? ≠ some '.') :
    ∀ fs : FileSys, resolveId po fs true preserveSymlinks fuel importee (some imp)
      = Except.ok none := by
  intro fs
  simp [resolveId, habs, hdot]

/-- Claim C4 witness: the bare specifier lodash with a defined importer on
a filesystem where every probe fails. -/
theorem bare_specifier_unresolved_witness :
    resolveId samplePathOps fsEmpty true false 2 ("lodash") (some ("/src/main.js"))
      = Except.ok none :=
  bare_specifier_unresolved samplePathOps false 2 ("lodash") ("/src/main.js")
    (by decide) (by decide) fsEmpty

/-- Claim C3: with the process capability present, a request none of whose
three extension candidates passes file verification resolves to null; and
without the process capability every request fails loudly with the
MISSING_PROCESS error. -/
theorem resolveId_unresolved_or_fatal (po : PathOps) (fs : FileSys)
    (preserveSymlinks : Bool) (fuel : Nat) (importee : String) (importer : Option String)
    (h1 : findFile po fs fuel (composedPath po importee importer) preserveSymlinks = none)
    (h2 : findFile po fs fuel (composedPath po importee importer ++ ".mjs") preserveSymlinks = none)
    (h3 : findFile po fs fuel (composedPath po importee importer ++ ".js") preserveSymlinks = none) :
    resolveId po fs true preserveSymlinks fuel importee importer = Except.ok none ∧
    ∀ importee2 importer2,
      resolveId po fs false preserveSymlinks fuel importee2 importer2
        = Except.error missingProcessError := by
  constructor
  · have haddjs : addJsExtensionIfNecessary po fs fuel
        (composedPath po importee importer) preserveSymlinks = none := by
      simp [addJsExtensionIfNecessary, h1, h2, h3, jsTruthy]
    simp [resolveId, haddjs]
  · intro importee2 importer2
    simp [resolveId]

/-- Claim C3 witness: a relative specifier with no matching file on a
filesystem where every probe fails, with and without the process
capability. -/
theorem resolveId_unresolved_or_fatal_witness :
    resolveId samplePathOps fsEmpty true false 2 ("./missing") (some ("/src/main.js"))
      = Except.ok none ∧
    resolveId samplePathOps fsEmpty false false 2 ("./missing") (some ("/src/main.js"))
      = Except.error missingProcessError := by
  have h := resolveId_unresolved_or_fatal samplePathOps fsEmpty false 2 ("./missing")
    (some ("/src/main.js")) (by decide) (by decide) (by decide)
  exact ⟨h.1, h.2 ("./missing") (some ("/src/main.js"))⟩

/-- Claim C5: extension inference tries the exact composed path, then the
path with .mjs appended, then with .js appended, the first truthy
verification winning; and a plain file whose basename appears in its
directory listing verifies as itself. -/
theorem addJsExtension_candidate_order (po : PathOps) (fs : FileSys) (fuel : Nat)
    (file : String) (preserveSymlinks : Bool) :
    (∀ r, findFile po fs fuel file preserveSymlinks = some r → r ≠ "" →
        addJsExtensionIfNecessary po fs fuel file preserveSymlinks = some r) ∧
    (∀ r, jsTruthy (findFile po fs fuel file preserveSymlinks) = false →
        findFile po fs fuel (file ++ ".mjs") preserveSymlinks = some r → r ≠ "" →
        addJsExtensionIfNecessary po fs fuel file preserveSymlinks = some r) ∧
    (jsTruthy (findFile po fs fuel file preserveSymlinks) = false →
      jsTruthy (findFile po fs fuel (file ++ ".mjs") preserveSymlinks) = false →
        addJsExtensionIfNecessary po fs fuel file preserveSymlinks
          = findFile po fs fuel (file ++ ".js") preserveSymlinks) ∧
    (∀ n st files, fs.lstat file = some st → st.isSymbolicLink = false →
        st.isFile = true → fs.readdir (po.dirname file) = some files →
        po.basename file ∈ files →
        findFile po fs (n + 1) file preserveSymlinks = some file) := by
  refine ⟨?_, ?_, ?_, ?_⟩
  · intro r h hr
    have ht : jsTruthy (some r) = true := by simp [jsTruthy, hr]
    simp [addJsExtensionIfNecessary, h, ht]
  · intro r h0 h hr
    have ht : jsTruthy (some r) = true := by simp [jsTruthy, hr]
    simp [addJsExtensionIfNecessary, h0, h, ht]
  · intro h0 h1
    simp [addJsExtensionIfNecessary, h0, h1]
  · intro n st files hstat hsym hfile hdir hmem
    simp [findFile, hstat, hsym, hfile, hdir, hmem]

/-- Claim C5 witness: the exact candidate /dir/a.js wins immediately, and
for /dir/b the .mjs candidate wins after the exact candidate fails. -/
theorem addJsExtension_candidate_order_witness :
    addJsExtensionIfNecessary samplePathOps fsPlain 1 ("/dir/a.js") false
      = some ("/dir/a.js") ∧
    addJsExtensionIfNecessary samplePathOps fsPlain 1 ("/dir/b") false
      = some ("/dir/b.mjs") :=
  ⟨(addJsExtension_candidate_order samplePathOps fsPlain 1 ("/dir/a.js") false).1
      ("/dir/a.js") (by decide) (by decide),
   (addJsExtension_candidate_order samplePathOps fsPlain 1 ("/dir/b") false).2.1
      ("/dir/b.mjs") (by decide) (by decide) (by decide)⟩

/-- Claim C6: a candidate with plain-file status whose basename does not
appear in the containing directory listing fails file verification. -/
theorem findFile_case_mismatch_unresolved (po : PathOps) (fs : FileSys)
    (file : String) (preserveSymlinks : Bool) (n : Nat) (st : Stats) (files : List String)
    (hstat : fs.lstat file = some st) (hsym : st.isSymbolicLink = false)
    (hfile : st.isFile = true) (hdir : fs.readdir (po.dirname file) = some files)
    (hmem : po.basename file ∉ files) :
    findFile po fs (n + 1) file preserveSymlinks = none := by
  simp [findFile, hstat, hsym, hfile, hdir, hmem]

/-- Claim C6 witness: requesting /dir/Foo.js when the directory listing
holds only foo.js fails verification. -/
theorem findFile_case_mismatch_unresolved_witness :
    findFile samplePathOps fsCase 1 ("/dir/Foo.js") false = none :=
  findFile_case_mismatch_unresolved samplePathOps fsCase ("/dir/Foo.js") false 0
    ⟨true, false⟩ ["foo.js"] (by decide) rfl rfl (by decide) (by decide)

/-- Claim C7: for a candidate with symbolic-link status, with symlink
preservation off the verification continues on the realpath target (the
fully dereferenced end of any symlink chain), and with preservation on the
symlink's own path is returned exactly when its basename verifies against
the directory listing. -/
theorem findFile_symlink_handling (po : PathOps) (fs : FileSys) (file : String)
    (n : Nat) (st : Stats) (hstat : fs.lstat file = some st)
    (hsym : st.isSymbolicLink = true) :
    (∀ target, fs.realpath file = some target →
        findFile po fs (n + 1) file false = findFile po fs n target false) ∧
    (∀ files, fs.readdir (po.dirname file) = some files →
        findFile po fs (n + 1) file true
          = if po.basename file ∈ files then some file else none) := by
  constructor
  · intro target htarget
    simp [findFile, hstat, hsym, htarget]
  · intro files hdir
    simp [findFile, hstat, hsym, hdir]

/-- Claim C7 witness: with preservation off the symlink /dir/link.js
resolves to its verified real target, with preservation on to its own
path. -/
theorem findFile_symlink_handling_witness :
    findFile samplePathOps fsLink 2 ("/dir/link.js") false = some ("/real/target.js") ∧
    findFile samplePathOps fsLink 2 ("/dir/link.js") true = some ("/dir/link.js") := by
  have h := findFile_symlink_handling samplePathOps fsLink ("/dir/link.js") 1
    ⟨false, true⟩ (by decide) rfl
  refine ⟨?_, ?_⟩
  · rw [h.1 ("/real/target.js") (by decide)]
    decide
  · rw [h.2 ["link.js"] (by decide)]
    decide

/-- Claim C9: every failing filesystem probe — status lookup, realpath
read, or directory listing — makes the candidate verification yield none,
and with the process capability present the resolver always returns an ok
result, so no probe error propagates out of resolveId. -/
theorem probe_errors_suppressed (po : PathOps) (fs : FileSys) (file : String)
    (preserveSymlinks : Bool) (n : Nat) :
    (fs.lstat file = none → findFile po fs (n + 1) file preserveSymlinks = none) ∧
    (∀ st, fs.lstat file = some st → st.isSymbolicLink = true →
        fs.realpath file = none → findFile po fs (n + 1) file false = none) ∧
    (∀ st, fs.lstat file = some st →
        (!preserveSymlinks && st.isSymbolicLink) = false →
        ((preserveSymlinks && st.isSymbolicLink) || st.isFile) = true →
        fs.readdir (po.dirname file) = none →
        findFile po fs (n + 1) file preserveSymlinks = none) ∧
    (∀ fuel importee importer, ∃ r,
        resolveId po fs true preserveSymlinks fuel importee importer = Except.ok r) := by
  refine ⟨?_, ?_, ?_, ?_⟩
  · intro h
    simp [findFile, h]
  · intro st hstat hsym hrp
    simp [findFile, hstat, hsym, hrp]
  · intro st hstat hb1 hb2 hdir
    simp [findFile, hstat, hb1, hb2, hdir]
  · intro fuel importee importer
    simp only [resolveId, Bool.not_true, Bool.false_eq_true, if_false]
    split
    · exact ⟨none, rfl⟩
    · exact ⟨_, rfl⟩

/-- Claim C9 witness: a failing status probe and a failing realpath probe
(symlink cycle) each yield an absent candidate. -/
theorem probe_errors_suppressed_witness :
    findFile samplePathOps fsEmpty 1 ("/dir/a.js") false = none ∧
    findFile samplePathOps fsCycle 1 ("/dir/self.js") false = none :=
  ⟨(probe_errors_suppressed samplePathOps fsEmpty ("/dir/a.js") false 0).1 rfl,
   (probe_errors_suppressed samplePathOps fsCycle ("/dir/self.js") false 0).2.1
      ⟨false, true⟩ rfl rfl rfl⟩

theorem findFile_fuel_stable_nonlink (po : PathOps) (fs : FileSys) (file : String)
    (preserveSymlinks : Bool)
    (h : ∀ st, fs.lstat file = some st → (!preserveSymlinks && st.isSymbolicLink) = false) :
    ∀ n, findFile po fs (n + 1) file preserveSymlinks
      = findFile po fs 1 file preserveSymlinks := by
  intro n
  cases hstat : fs.lstat file with
  | none => simp [findFile, hstat]
  | some st =>
    have hb := h st hstat
    simp [findFile, hstat, hb]

/-- Claim C10: under a consistent filesystem snapshot — a successful
realpath result is fully dereferenced, so its status is never a symbolic
link — file verification recurses at most once: every fuel of at least
two computes the same result as fuel two; and when realpath fails (as on
a symlink cycle) the verification yields none instead of recursing. -/
theorem findFile_terminates_bounded (po : PathOps) (fs : FileSys)
    (hcons : realpathConsistent fs) :
    (∀ n file preserveSymlinks, findFile po fs (n + 2) file preserveSymlinks
        = findFile po fs 2 file preserveSymlinks) ∧
    (∀ file st n, fs.lstat file = some st → st.isSymbolicLink = true →
        fs.realpath file = none → findFile po fs (n + 1) file false = none) := by
  constructor
  · intro n file ps
    cases hstat : fs.lstat file with
    | none =>
      show findFile po fs (n + 1 + 1) file ps = findFile po fs (1 + 1) file ps
      simp [findFile, hstat]
    | some st =>
      by_cases hb : (!ps && st.isSymbolicLink) = true
      · cases htarget : fs.realpath file with
        | none =>
          show findFile po fs (n + 1 + 1) file ps = findFile po fs (1 + 1) file ps
          simp [findFile, hstat, hb, htarget]
        | some target =>
          have hnl : ∀ st2, fs.lstat target = some st2 →
              (!ps && st2.isSymbolicLink) = false := by
            intro st2 hst2
            have hz := hcons file target st2 htarget hst2
            simp [hz]
          have l1 : findFile po fs (n + 1 + 1) file ps
              = findFile po fs (n + 1) target ps := by
            simp [findFile, hstat, hb, htarget]
          have l2 : findFile po fs (1 + 1) file ps
              = findFile po fs 1 target ps := by
            simp [findFile, hstat, hb, htarget]
          show findFile po fs (n + 1 + 1) file ps = findFile po fs (1 + 1) file ps
          rw [l1, l2, findFile_fuel_stable_nonlink po fs target ps hnl n]
      · have hb' : (!ps && st.isSymbolicLink) = false := by
          cases hq : (!ps && st.isSymbolicLink) with
          | false => rfl
          | true => exact absurd hq hb
        have hnl : ∀ st2, fs.lstat file = some st2 →
            (!ps && st2.isSymbolicLink) = false := by
          intro st2 hst2
          rw [hstat] at hst2
          cases hst2
          exact hb'
        show findFile po fs (n + 1 + 1) file ps = findFile po fs (0 + 1 + 1) file ps
        rw [findFile_fuel_stable_nonlink po fs file ps hnl (n + 1),
          findFile_fuel_stable_nonlink po fs file ps hnl (0 + 1)]
  · intro file st n hstat hsym hrp
    simp [findFile, hstat, hsym, hrp]

/-- Claim C10 witness: on the consistent symlinked filesystem any fuel
beyond two is irrelevant, and the failing realpath of a cyclic symlink
yields an absent candidate. -/
theorem findFile_terminates_bounded_witness :
    findFile samplePathOps fsLink 3 ("/dir/link.js") false = some ("/real/target.js") ∧
    findFile samplePathOps fsCycle 1 ("/dir/self.js") false = none := by
  have hconsLink : realpathConsistent fsLink := by
    intro p target st hrp hst
    unfold fsLink at hrp hst
    simp only at hrp hst
    split at hrp
    · cases hrp
      simp only [show ("/real/target.js" = "/dir/link.js") = False by simp, if_false,
        if_pos rfl] at hst
      cases hst
      rfl
    · cases hrp
  have hconsCycle : realpathConsistent fsCycle := by
    intro p target st hrp _
    unfold fsCycle at hrp
    simp only at hrp
    cases hrp
  constructor
  · have h := (findFile_terminates_bounded samplePathOps fsLink hconsLink).1 1
      ("/dir/link.js") false
    rw [show (3 : Nat) = 1 + 2 from rfl] at *
    rw [h]
    decide
  · exact (findFile_terminates_bounded samplePathOps fsCycle hconsCycle).2
      ("/dir/self.js") ⟨false, true⟩ 0 rfl rfl rfl
